import Mathlib

/-!
Verification of the Elvis internet-simulation core (the `sim` crate):
a shallow embedding of the protocol stack (Tap/Nic link layer, Ipv4, Udp),
the Message and Control data model, and the machine tick, together with
theorems settling the specification's claims about them.

Sources embedded:
- `src/sim/src/protocols/ipv4/ipv4_parsing.rs` (Ipv4Header::from_bytes)
- `src/sim/src/protocols/ipv4.rs` (Ipv4 protocol: open_active, listen, demux,
  Ipv4Session::recv)
- `src/sim/src/protocols/udp.rs` (Udp protocol: open, listen, demux)
- `src/sim/src/protocols/nic.rs` (Nic: accept_incoming, open_active)
- `src/sim/src/protocols/tap/tap_session.rs` (TapSession::send)
- `src/sim/src/core/machine.rs` (Machine::awake, inbound loop)

The crate's `core/message.rs`, `core/control.rs` and `core/protocol_id.rs`
modules are not present in the source tree (only their users are); those
parts are modelled from the specification and are marked as such.
Shared `Rc`/`Arc` session references are modelled as `Nat` handles.
-/

/-- Modelled from the spec: `core/control.rs` is missing from the source
tree. A `Primitive` is a tagged machine integer (u8, u16, u32 or u64);
payloads are `Nat` with the width tag kept explicit. -/
inductive Primitive where
  | u8 (v : Nat)
  | u16 (v : Nat)
  | u32 (v : Nat)
  | u64 (v : Nat)
deriving DecidableEq, Repr

/-- Modelled from the spec: typed-read error for `Primitive`
("Fetching a key with the wrong type is an error"). -/
inductive PrimitiveError where
  | wrongPrimitiveType
deriving DecidableEq, Repr

/-- Modelled from the spec: `Primitive::to_u8` fails unless the tag is u8. -/
def Primitive.to_u8 : Primitive → Except PrimitiveError Nat
  | .u8 v => .ok v
  | _ => .error .wrongPrimitiveType

/-- Modelled from the spec: `Primitive::to_u16` fails unless the tag is u16. -/
def Primitive.to_u16 : Primitive → Except PrimitiveError Nat
  | .u16 v => .ok v
  | _ => .error .wrongPrimitiveType

/-- Modelled from the spec: `Primitive::to_u32` fails unless the tag is u32. -/
def Primitive.to_u32 : Primitive → Except PrimitiveError Nat
  | .u32 v => .ok v
  | _ => .error .wrongPrimitiveType

/-- Modelled from the spec: the recognized `Control` keys
(spec section 3, table of keys). -/
inductive ControlKey where
  | localAddress
  | remoteAddress
  | localPort
  | remotePort
  | networkIndex
  | protocolId
deriving DecidableEq, Repr

/-- Modelled from the spec: a `Control` is a map from `ControlKey` to
`Primitive`, here an association list whose first matching entry wins. -/
abbrev Control : Type := List (ControlKey × Primitive)

/-- Modelled from the spec: the empty `Control` (`Control::new`). -/
def Control.new : Control := []

/-- Modelled from the spec: `Control::get` returns the value stored at a
key, if any. -/
def Control.get (c : Control) (k : ControlKey) : Option Primitive :=
  (c.find? (fun p => p.1 = k)).map (·.2)

/-- Modelled from the spec: `Control::insert` overwrites any existing
entry for the key. -/
def Control.insert (c : Control) (k : ControlKey) (v : Primitive) : Control :=
  (k, v) :: c.filter (fun p => ¬ p.1 = k)

theorem Control.get_insert_self (c : Control) (k : ControlKey) (v : Primitive) :
    (c.insert k v).get k = some v := by
  simp [Control.get, Control.insert, List.find?]

/-- The four network layers (`core/protocol_id.rs` is missing from the
source tree; modelled from the spec, which lists
NetworkLayer ∈ \x7bLink, Network, Transport, User\x7d). -/
inductive NetworkLayer where
  | link
  | network
  | transport
  | user
deriving DecidableEq, Repr

/-- Modelled from the spec: the numeric value of each layer, so that a
`ProtocolId` "encodes compactly to u16 as (layer<<8 | code)". -/
def NetworkLayer.toNat : NetworkLayer → Nat
  | .link => 0
  | .network => 1
  | .transport => 2
  | .user => 3

/-- Modelled from the spec: decoding a layer byte; bytes other than 0-3
denote no layer (the source's `NetworkLayerError`). -/
def NetworkLayer.fromNat : Nat → Option NetworkLayer
  | 0 => some .link
  | 1 => some .network
  | 2 => some .transport
  | 3 => some .user
  | _ => none

/-- A protocol identifier: a layer and a per-layer u8 code
(spec: "A pair (NetworkLayer, u8 code)"). -/
structure ProtocolId where
  layer : NetworkLayer
  identifier : Nat
deriving DecidableEq, Repr

/-- Modelled from the spec: the 2-byte big-endian encoding of a
`ProtocolId` used as the Tap frame header (layer byte, then code byte). -/
def ProtocolId.toBytes (p : ProtocolId) : List Nat :=
  [p.layer.toNat, p.identifier]

/-- Modelled from the spec: decoding a 2-byte Tap header back into a
`ProtocolId`; fails when the layer byte is invalid. -/
def ProtocolId.fromBytes (a b : Nat) : Option ProtocolId :=
  (NetworkLayer.fromNat a).map (fun l => ⟨l, b⟩)

theorem ProtocolId.fromBytes_toBytes (p : ProtocolId) :
    ProtocolId.fromBytes p.layer.toNat p.identifier = some p := by
  cases p with
  | mk l i => cases l <;> rfl

/-- Modelled from the spec: a Message is an ordered, immutable sequence
of bytes; `with_header` and `slice` are specified by their effect on the
observable byte sequence (`bytes ++ self`, drop the first `start`). -/
structure Message where
  bytes : List Nat
deriving DecidableEq, Repr

/-- Modelled from the spec: `with_header(bytes)` returns a Message
logically equal to `bytes ++ self`. -/
def Message.with_header (m : Message) (h : List Nat) : Message :=
  ⟨h ++ m.bytes⟩

/-- Modelled from the spec: `slice(start..)` drops the first `start`
bytes. -/
def Message.slice (m : Message) (start : Nat) : Message :=
  ⟨m.bytes.drop start⟩

/-- Modelled from the spec: `Message::len`, the number of observable
bytes (`iter().count()`). -/
def Message.len (m : Message) : Nat := m.bytes.length

/-- C8: prepending a header and then slicing off its length restores the
original byte sequence:
`m.with_header(h).slice(h.len()..).bytes() == m.bytes()`. -/
theorem Message.with_header_slice_roundtrip (m : Message) (h : List Nat) :
    ((m.with_header h).slice h.length).bytes = m.bytes := by
  simp [Message.with_header, Message.slice]

/-- Big-endian composition of two bytes into a u16
(`u16::from_be_bytes`). -/
def be16 (a b : Nat) : Nat := a * 256 + b

/-- Big-endian composition of four bytes into a u32
(`u32::from_be_bytes`). -/
def be32 (a b c d : Nat) : Nat := ((a * 256 + b) * 256 + c) * 256 + d

/-- Parse errors of `ipv4_parsing.rs` (the enum lives in the crate's
`ipv4_misc` module; the variants here are the ones `from_bytes`
produces). -/
inductive Ipv4ParseError where
  | headerTooShort
  | incorrectIpv4Version
  | invalidHeaderLength
  | usedReservedTos
  | usedReservedFlag
  | incorrectChecksum (expected actual : Nat)
deriving DecidableEq, Repr

/-- An IPv4 header, as in `ipv4_parsing.rs` (`Ipv4Header`). `TypeOfService`
and `ControlFlags` are byte wrappers in the source and are kept as raw
byte values here. -/
structure Ipv4Header where
  ihl : Nat
  type_of_service : Nat
  total_length : Nat
  identification : Nat
  fragment_offset : Nat
  flags : Nat
  time_to_live : Nat
  protocol : Nat
  checksum : Nat
  source : Nat
  destination : Nat
deriving DecidableEq, Repr

/-- The i-th byte yielded by a message or header iterator; 0 past the
end (only used under a length guard, mirroring the source's iterator
that errors before any out-of-range byte is consumed). -/
def byteAt (bs : List Nat) (i : Nat) : Nat := bs.getD i 0

/-- `u16::carrying_add`: add `value` and the incoming carry to the
accumulator modulo 2^16 and report the outgoing carry
(`oc_add_u16` in `ipv4_parsing.rs`). -/
def ocAdd16 (acc : Nat × Bool) (value : Nat) : Nat × Bool :=
  let s := acc.1 + value + (if acc.2 then 1 else 0)
  (s % 65536, decide (65536 ≤ s))

/-- The raw one's-complement accumulator over the header words, in the
exact order `Ipv4Header::from_bytes` adds them: words 0-4 of the first
ten bytes, then bytes 12-19, then a final add of zero to absorb the
last carry (whose own carry-out is dropped, as in `carrying_add`). -/
def ipv4RawChecksum (bs : List Nat) : Nat :=
  let g := byteAt bs
  let a0 := ocAdd16 (0, false) (be16 (g 0) (g 1))
  let a1 := ocAdd16 a0 (be16 (g 2) (g 3))
  let a2 := ocAdd16 a1 (be16 (g 4) (g 5))
  let a3 := ocAdd16 a2 (be16 (g 6) (g 7))
  let a4 := ocAdd16 a3 (be16 (g 8) (g 9))
  let a5 := ocAdd16 a4 (be16 (g 12) (g 13))
  let a6 := ocAdd16 a5 (be16 (g 14) (g 15))
  let a7 := ocAdd16 a6 (be16 (g 16) (g 17))
  let a8 := ocAdd16 a7 (be16 (g 18) (g 19))
  (ocAdd16 a8 0).1

/-- The checksum value `from_bytes` compares the wire field against: the
one's complement (`!checksum` on u16, i.e. `65535 - raw`) of the raw
accumulator, except that a raw accumulator of 0xFFFF (whose complement
is 0x0000) is represented as 0xFFFF. -/
def ipv4ChecksumValue (bs : List Nat) : Nat :=
  let raw := ipv4RawChecksum bs
  if raw = 65535 then 65535 else 65535 - raw

/-- `Ipv4Header::from_bytes` from `ipv4_parsing.rs`: reads exactly the
first twenty bytes (erring with `HeaderTooShort` if fewer are
available), validates version, IHL, the reserved ToS bits and the
reserved control flag, and verifies a nonzero checksum field against the
recomputed value. -/
def Ipv4Header.from_bytes (bs : List Nat) : Except Ipv4ParseError Ipv4Header :=
  if bs.length < 20 then .error .headerTooShort else
  let g := byteAt bs
  let version := g 0 / 16
  if version ≠ 4 then .error .incorrectIpv4Version else
  let ihl := g 0 % 16
  if ihl ≠ 5 then .error .invalidHeaderLength else
  let tos := g 1
  if tos % 4 ≠ 0 then .error .usedReservedTos else
  let total_length := be16 (g 2) (g 3)
  let identification := be16 (g 4) (g 5)
  let ffo := be16 (g 6) (g 7)
  let fragment_offset := ffo % 8192
  let control_flag_bits := ffo / 8192
  if control_flag_bits / 4 % 2 ≠ 0 then .error .usedReservedFlag else
  let time_to_live := g 8
  let protocol := g 9
  let expected_checksum := be16 (g 10) (g 11)
  let source := be32 (g 12) (g 13) (g 14) (g 15)
  let destination := be32 (g 16) (g 17) (g 18) (g 19)
  if expected_checksum ≠ 0 ∧ ipv4ChecksumValue bs ≠ expected_checksum then
    .error (.incorrectChecksum expected_checksum (ipv4ChecksumValue bs))
  else
    .ok ⟨ihl, tos, total_length, identification, fragment_offset,
      control_flag_bits, time_to_live, protocol, expected_checksum,
      source, destination⟩

/-- C3: `Ipv4Header::from_bytes` succeeds if and only if at least 20
bytes are available, the version nibble is 4, the IHL nibble is 5, the
two reserved ToS bits are zero, the reserved control flag is clear, and
the checksum field is zero or equals the recomputed checksum (where a
raw one's-complement accumulator of 0xFFFF, whose complement is 0x0000,
is represented as 0xFFFF); each failing condition yields the
corresponding error, and a 0xFFFF field verifies against a computation
whose complement is 0x0000. -/
theorem Ipv4Header.from_bytes_spec (bs : List Nat) (hbytes : ∀ b ∈ bs, b < 256) :
    ((∃ h, Ipv4Header.from_bytes bs = .ok h) ↔
      (20 ≤ bs.length ∧ byteAt bs 0 / 16 = 4 ∧ byteAt bs 0 % 16 = 5 ∧
        byteAt bs 1 % 4 = 0 ∧ be16 (byteAt bs 6) (byteAt bs 7) / 8192 / 4 % 2 = 0 ∧
        (be16 (byteAt bs 10) (byteAt bs 11) = 0 ∨
          be16 (byteAt bs 10) (byteAt bs 11) = ipv4ChecksumValue bs)))
    ∧ (bs.length < 20 → Ipv4Header.from_bytes bs = .error .headerTooShort)
    ∧ (20 ≤ bs.length → byteAt bs 0 / 16 ≠ 4 →
        Ipv4Header.from_bytes bs = .error .incorrectIpv4Version)
    ∧ (20 ≤ bs.length → byteAt bs 0 / 16 = 4 → byteAt bs 0 % 16 ≠ 5 →
        Ipv4Header.from_bytes bs = .error .invalidHeaderLength)
    ∧ (20 ≤ bs.length → byteAt bs 0 / 16 = 4 → byteAt bs 0 % 16 = 5 →
        byteAt bs 1 % 4 ≠ 0 → Ipv4Header.from_bytes bs = .error .usedReservedTos)
    ∧ (20 ≤ bs.length → byteAt bs 0 / 16 = 4 → byteAt bs 0 % 16 = 5 →
        byteAt bs 1 % 4 = 0 → be16 (byteAt bs 6) (byteAt bs 7) / 8192 / 4 % 2 ≠ 0 →
        Ipv4Header.from_bytes bs = .error .usedReservedFlag)
    ∧ (20 ≤ bs.length → byteAt bs 0 / 16 = 4 → byteAt bs 0 % 16 = 5 →
        byteAt bs 1 % 4 = 0 → be16 (byteAt bs 6) (byteAt bs 7) / 8192 / 4 % 2 = 0 →
        be16 (byteAt bs 10) (byteAt bs 11) ≠ 0 →
        be16 (byteAt bs 10) (byteAt bs 11) ≠ ipv4ChecksumValue bs →
        Ipv4Header.from_bytes bs =
          .error (.incorrectChecksum (be16 (byteAt bs 10) (byteAt bs 11))
            (ipv4ChecksumValue bs)))
    ∧ (ipv4RawChecksum bs = 65535 → ipv4ChecksumValue bs = 65535) := by
  have hnv : ∀ {n m : Nat}, n = m → ¬ (n ≠ m) := fun h hn => hn h
  refine ⟨?_, ?_, ?_, ?_, ?_, ?_, ?_, ?_⟩
  · by_cases h20 : bs.length < 20
    · simp only [Ipv4Header.from_bytes, if_pos h20]
      constructor
      · rintro ⟨h, hh⟩; exact Except.noConfusion hh
      · rintro ⟨hle, -⟩; omega
    · by_cases hv : byteAt bs 0 / 16 = 4
      · by_cases hihl : byteAt bs 0 % 16 = 5
        · by_cases htos : byteAt bs 1 % 4 = 0
          · by_cases hflag : be16 (byteAt bs 6) (byteAt bs 7) / 8192 / 4 % 2 = 0
            · by_cases hcs : be16 (byteAt bs 10) (byteAt bs 11) = 0 ∨
                  be16 (byteAt bs 10) (byteAt bs 11) = ipv4ChecksumValue bs
              · have hcond : ¬ (be16 (byteAt bs 10) (byteAt bs 11) ≠ 0 ∧
                    ipv4ChecksumValue bs ≠ be16 (byteAt bs 10) (byteAt bs 11)) := by
                  rcases hcs with hcs | hcs
                  · exact fun hc => hc.1 hcs
                  · exact fun hc => hc.2 hcs.symm
                simp only [Ipv4Header.from_bytes, if_neg h20]
                rw [if_neg (hnv hv), if_neg (hnv hihl), if_neg (hnv htos),
                  if_neg (hnv hflag), if_neg hcond]
                exact iff_of_true ⟨_, rfl⟩ ⟨by omega, hv, hihl, htos, hflag, hcs⟩
              · push_neg at hcs
                have hcond : be16 (byteAt bs 10) (byteAt bs 11) ≠ 0 ∧
                    ipv4ChecksumValue bs ≠ be16 (byteAt bs 10) (byteAt bs 11) :=
                  ⟨hcs.1, fun he => hcs.2 he.symm⟩
                simp only [Ipv4Header.from_bytes, if_neg h20]
                rw [if_neg (hnv hv), if_neg (hnv hihl), if_neg (hnv htos),
                  if_neg (hnv hflag), if_pos hcond]
                constructor
                · rintro ⟨h, hh⟩; exact Except.noConfusion hh
                · rintro ⟨-, -, -, -, -, h6⟩
                  rcases h6 with h6 | h6
                  · exact (hcs.1 h6).elim
                  · exact (hcs.2 h6).elim
            · simp only [Ipv4Header.from_bytes, if_neg h20]
              rw [if_neg (hnv hv), if_neg (hnv hihl), if_neg (hnv htos), if_pos hflag]
              constructor
              · rintro ⟨h, hh⟩; exact Except.noConfusion hh
              · rintro ⟨-, -, -, -, h5, -⟩; exact (hflag h5).elim
          · simp only [Ipv4Header.from_bytes, if_neg h20]
            rw [if_neg (hnv hv), if_neg (hnv hihl), if_pos htos]
            constructor
            · rintro ⟨h, hh⟩; exact Except.noConfusion hh
            · rintro ⟨-, -, -, h4, -⟩; exact (htos h4).elim
        · simp only [Ipv4Header.from_bytes, if_neg h20]
          rw [if_neg (hnv hv), if_pos hihl]
          constructor
          · rintro ⟨h, hh⟩; exact Except.noConfusion hh
          · rintro ⟨-, -, h3, -⟩; exact (hihl h3).elim
      · simp only [Ipv4Header.from_bytes, if_neg h20]
        rw [if_pos hv]
        constructor
        · rintro ⟨h, hh⟩; exact Except.noConfusion hh
        · rintro ⟨-, h2, -⟩; exact (hv h2).elim
  · intro h20
    simp only [Ipv4Header.from_bytes, if_pos h20]
  · intro h20 hv
    simp only [Ipv4Header.from_bytes, if_neg (show ¬ bs.length < 20 by omega)]
    rw [if_pos hv]
  · intro h20 hv hihl
    simp only [Ipv4Header.from_bytes, if_neg (show ¬ bs.length < 20 by omega)]
    rw [if_neg (hnv hv), if_pos hihl]
  · intro h20 hv hihl htos
    simp only [Ipv4Header.from_bytes, if_neg (show ¬ bs.length < 20 by omega)]
    rw [if_neg (hnv hv), if_neg (hnv hihl), if_pos htos]
  · intro h20 hv hihl htos hflag
    simp only [Ipv4Header.from_bytes, if_neg (show ¬ bs.length < 20 by omega)]
    rw [if_neg (hnv hv), if_neg (hnv hihl), if_neg (hnv htos), if_pos hflag]
  · intro h20 hv hihl htos hflag hne hmm
    have hcond : be16 (byteAt bs 10) (byteAt bs 11) ≠ 0 ∧
        ipv4ChecksumValue bs ≠ be16 (byteAt bs 10) (byteAt bs 11) :=
      ⟨hne, fun he => hmm he.symm⟩
    simp only [Ipv4Header.from_bytes, if_neg (show ¬ bs.length < 20 by omega)]
    rw [if_neg (hnv hv), if_neg (hnv hihl), if_neg (hnv htos), if_neg (hnv hflag),
      if_pos hcond]
  · intro hraw
    simp [ipv4ChecksumValue, hraw]

/-- A concrete, well-formed 20-byte IPv4 header used as the sample input
for witnesses: version 4, IHL 5, total length 20, TTL 30, protocol 17,
checksum 0x13D7, source 127.0.0.1, destination 10.0.0.2. -/
def ipv4SampleHeader : List Nat :=
  [0x45, 0, 0, 20, 0, 0, 0, 0, 30, 17, 0x13, 0xD7, 127, 0, 0, 1, 10, 0, 0, 2]

/-- Witness for C3 at the concrete sample header. -/
theorem Ipv4Header.from_bytes_spec_witness :
    (∀ b ∈ ipv4SampleHeader, b < 256) ∧
    (((∃ h, Ipv4Header.from_bytes ipv4SampleHeader = .ok h) ↔
      (20 ≤ ipv4SampleHeader.length ∧ byteAt ipv4SampleHeader 0 / 16 = 4 ∧
        byteAt ipv4SampleHeader 0 % 16 = 5 ∧
        byteAt ipv4SampleHeader 1 % 4 = 0 ∧
        be16 (byteAt ipv4SampleHeader 6) (byteAt ipv4SampleHeader 7) / 8192 / 4 % 2 = 0 ∧
        (be16 (byteAt ipv4SampleHeader 10) (byteAt ipv4SampleHeader 11) = 0 ∨
          be16 (byteAt ipv4SampleHeader 10) (byteAt ipv4SampleHeader 11) =
            ipv4ChecksumValue ipv4SampleHeader)))
    ∧ (ipv4SampleHeader.length < 20 →
        Ipv4Header.from_bytes ipv4SampleHeader = .error .headerTooShort)
    ∧ (20 ≤ ipv4SampleHeader.length → byteAt ipv4SampleHeader 0 / 16 ≠ 4 →
        Ipv4Header.from_bytes ipv4SampleHeader = .error .incorrectIpv4Version)
    ∧ (20 ≤ ipv4SampleHeader.length → byteAt ipv4SampleHeader 0 / 16 = 4 →
        byteAt ipv4SampleHeader 0 % 16 ≠ 5 →
        Ipv4Header.from_bytes ipv4SampleHeader = .error .invalidHeaderLength)
    ∧ (20 ≤ ipv4SampleHeader.length → byteAt ipv4SampleHeader 0 / 16 = 4 →
        byteAt ipv4SampleHeader 0 % 16 = 5 → byteAt ipv4SampleHeader 1 % 4 ≠ 0 →
        Ipv4Header.from_bytes ipv4SampleHeader = .error .usedReservedTos)
    ∧ (20 ≤ ipv4SampleHeader.length → byteAt ipv4SampleHeader 0 / 16 = 4 →
        byteAt ipv4SampleHeader 0 % 16 = 5 → byteAt ipv4SampleHeader 1 % 4 = 0 →
        be16 (byteAt ipv4SampleHeader 6) (byteAt ipv4SampleHeader 7) / 8192 / 4 % 2 ≠ 0 →
        Ipv4Header.from_bytes ipv4SampleHeader = .error .usedReservedFlag)
    ∧ (20 ≤ ipv4SampleHeader.length → byteAt ipv4SampleHeader 0 / 16 = 4 →
        byteAt ipv4SampleHeader 0 % 16 = 5 → byteAt ipv4SampleHeader 1 % 4 = 0 →
        be16 (byteAt ipv4SampleHeader 6) (byteAt ipv4SampleHeader 7) / 8192 / 4 % 2 = 0 →
        be16 (byteAt ipv4SampleHeader 10) (byteAt ipv4SampleHeader 11) ≠ 0 →
        be16 (byteAt ipv4SampleHeader 10) (byteAt ipv4SampleHeader 11) ≠
          ipv4ChecksumValue ipv4SampleHeader →
        Ipv4Header.from_bytes ipv4SampleHeader =
          .error (.incorrectChecksum
            (be16 (byteAt ipv4SampleHeader 10) (byteAt ipv4SampleHeader 11))
            (ipv4ChecksumValue ipv4SampleHeader)))
    ∧ (ipv4RawChecksum ipv4SampleHeader = 65535 →
        ipv4ChecksumValue ipv4SampleHeader = 65535)) :=
  ⟨by decide, Ipv4Header.from_bytes_spec ipv4SampleHeader (by decide)⟩

/-- Shared `Rc`/`Arc` session references are modelled as numeric
handles; handle equality models reference identity. -/
abbrev SessionHandle := Nat

/-- Generic association-list lookup (models `HashMap::get` /
`Entry::Occupied`): the first entry for the key, if any. -/
def assocGet {α β : Type} [DecidableEq α] (l : List (α × β)) (a : α) : Option β :=
  (l.find? (fun p => p.1 = a)).map (·.2)

/-- Generic association-list insert with overwrite semantics
(`HashMap::insert`). -/
def assocInsert {α β : Type} [DecidableEq α] (l : List (α × β)) (a : α) (b : β) :
    List (α × β) :=
  (a, b) :: l.filter (fun p => ¬ p.1 = a)

theorem assocGet_insert_self {α β : Type} [DecidableEq α]
    (l : List (α × β)) (a : α) (b : β) : assocGet (assocInsert l a b) a = some b := by
  simp [assocGet, assocInsert, List.find?]

/-- Looking up one key skips entries filtered out at a different key. -/
theorem find_filter_ne {α β : Type} [DecidableEq α] (l : List (α × β)) (a a' : α)
    (h : a' ≠ a) :
    List.find? (fun p => p.1 = a') (l.filter (fun p => ¬ p.1 = a)) =
      List.find? (fun p => p.1 = a') l := by
  induction l with
  | nil => rfl
  | cons p rest ih =>
      by_cases hp : p.1 = a
      · rw [List.filter_cons_of_neg (by simp [hp]),
          List.find?_cons_of_neg rest (by simp [hp, Ne.symm h])]
        exact ih
      · rw [List.filter_cons_of_pos (by simp [hp])]
        by_cases hq : p.1 = a'
        · rw [List.find?_cons_of_pos _ (by simp [hq]),
            List.find?_cons_of_pos rest (by simp [hq])]
        · rw [List.find?_cons_of_neg _ (by simp [hq]),
            List.find?_cons_of_neg rest (by simp [hq])]
          exact ih

theorem assocGet_insert_ne {α β : Type} [DecidableEq α]
    (l : List (α × β)) (a a' : α) (b : β) (h : a' ≠ a) :
    assocGet (assocInsert l a b) a' = assocGet l a' := by
  unfold assocGet assocInsert
  rw [List.find?_cons_of_neg _ (by simp [Ne.symm h]), find_filter_ne _ _ _ h]

theorem Control.get_insert_ne (c : Control) (k k' : ControlKey) (v : Primitive)
    (h : k' ≠ k) : (c.insert k v).get k' = c.get k' := by
  unfold Control.get Control.insert
  rw [List.find?_cons_of_neg _ (by simp [Ne.symm h]), find_filter_ne _ _ _ h]

/-- `Control::get` followed by a u16 read, collapsing the two failure
modes (missing key, wrong primitive type) that `try_from(...).unwrap()`
does not distinguish. -/
def Control.readU16 (c : Control) (k : ControlKey) : Option Nat :=
  match c.get k with
  | some (.u16 v) => some v
  | _ => none

/-- `Control::get` followed by a u32 read, collapsing the two failure
modes that `try_from(...).unwrap()` does not distinguish. -/
def Control.readU32 (c : Control) (k : ControlKey) : Option Nat :=
  match c.get k with
  | some (.u32 v) => some v
  | _ => none

/-- Decidable equality for `Except`, needed to evaluate result records
on concrete inputs. -/
def Except.decEq {ε α : Type} [DecidableEq ε] [DecidableEq α] :
    (a b : Except ε α) → Decidable (a = b)
  | .ok a, .ok b =>
    if h : a = b then isTrue (by rw [h])
    else isFalse (by intro hh; cases hh; exact h rfl)
  | .ok _, .error _ => isFalse (by intro hh; cases hh)
  | .error _, .ok _ => isFalse (by intro hh; cases hh)
  | .error e, .error f =>
    if h : e = f then isTrue (by rw [h])
    else isFalse (by intro hh; cases hh; exact h rfl)

instance {ε α : Type} [DecidableEq ε] [DecidableEq α] : DecidableEq (Except ε α) :=
  Except.decEq

/-- The errors of `nic.rs` (`NicError`), restricted to the variants the
embedded functions produce. -/
inductive NicError where
  | protocolNotFound
  | headerLength
  | invalidProtocolId
  | passiveOpen
  | identifierMissingKey (k : ControlKey)
deriving DecidableEq, Repr

/-- The errors of `ipv4.rs` (`Ipv4Error`). -/
inductive Ipv4Error where
  | missingListenBinding (addr : Nat)
  | missingSourceAddress
  | missingDestinationAddress
  | bindingExists (addr : Nat)
  | sessionExists (localAddr remoteAddr : Nat)
  | primitive (e : PrimitiveError)
  | missingSession (localAddr remoteAddr : Nat)
  | unknownUpstreamProtocol
deriving DecidableEq, Repr

/-- The errors of `udp.rs` (`UdpError`, whose enum lives in the missing
`udp_misc` module; the two variants used by `udp.rs` are modelled). -/
inductive UdpError where
  | sessionExists
  | missingSession
deriving DecidableEq, Repr

/-- Modelled from the external `etherparse` crate: its read errors are
collapsed to a single value. -/
inductive EtherparseError where
  | readError
deriving DecidableEq, Repr

/-- The union of error types flowing through `Box<dyn Error>` in the
source. `noSuchProtocol` models a failed `context.protocol(id)` lookup. -/
inductive SimError where
  | nic (e : NicError)
  | ipv4 (e : Ipv4Error)
  | udp (e : UdpError)
  | etherparse (e : EtherparseError)
  | noSuchProtocol (id : ProtocolId)
deriving DecidableEq, Repr

/-- The result of a call in a codebase that can also panic: `ok`, a
returned error (`err`), or a Rust panic (`panicked`), which is not an
error return. -/
inductive Outcome (α : Type) where
  | ok (a : α)
  | err (e : SimError)
  | panicked (msg : String)
deriving DecidableEq, Repr

/-- Link-layer session key (`SessionId` in `nic.rs` and
`tap_session.rs`): the upstream protocol and the network index. -/
structure NicSessionId where
  upstream : ProtocolId
  network : Nat
deriving DecidableEq, Repr

/-- `TapSession` from `tap_session.rs`: network index, FIFO of queued
outgoing messages, upstream protocol id. -/
structure TapSession where
  network : Nat
  outgoing : List Message
  upstream : ProtocolId
deriving DecidableEq, Repr

/-- `TapSession::send` from `tap_session.rs`: prepend the 2-byte
encoding of the upstream `ProtocolId` (`let header: [u8; 2] =
self.upstream.into()`) and push the framed message onto the outgoing
queue. -/
def TapSession.send (s : TapSession) (m : Message) : TapSession :=
  { s with outgoing := s.outgoing ++ [m.with_header s.upstream.toBytes] }

/-- The upstream demux invocation an inbound frame results in: which
protocol's `demux` is called, with which message and which context
info. -/
structure DemuxCall where
  protocol : ProtocolId
  message : Message
  info : Control
deriving DecidableEq, Repr

/-- `Nic::accept_incoming` from `nic.rs`: read the first two bytes of
the frame (`HeaderLength` if absent), decode them as a `ProtocolId`
(`InvalidProtocolId` on a bad layer byte), resolve the protocol in the
machine's table (`ProtocolNotFound` otherwise), record the network index
in `context.info`, and invoke that protocol's `demux` with the message
sliced past the 2-byte header. `protocols` is the set of ids the
machine's protocol table resolves; the `ok` payload records the demux
invocation, and on any error no demux happens. -/
def Nic.accept_incoming (protocols : List ProtocolId) (message : Message)
    (network : Nat) (info : Control) : Except NicError DemuxCall :=
  match message.bytes with
  | a :: b :: _ =>
    match ProtocolId.fromBytes a b with
    | none => .error .invalidProtocolId
    | some pid =>
      if pid ∈ protocols then
        .ok ⟨pid, message.slice 2, info.insert .networkIndex (.u8 network)⟩
      else .error .protocolNotFound
  | _ => .error .headerLength

/-- The `Nic` protocol state from `nic.rs`: the session table keyed by
`(upstream, network)`; `Arc` identity is modelled by handles drawn from
`nextHandle`. -/
structure Nic where
  sessions : List (NicSessionId × SessionHandle)
  nextHandle : SessionHandle
deriving DecidableEq, Repr

/-- Result of `Nic::open_active`: the updated protocol state and the
returned session reference. -/
structure NicOpenResult where
  nic : Nic
  result : Except NicError SessionHandle
deriving DecidableEq, Repr

/-- `Nic::open_active` from `nic.rs`: read the network index from the
identifier `Control` (it must be present and a u8, else
`IdentifierMissingKey`); return the existing session for
`(requester, network)` if one exists, otherwise create one, insert it
and return it. -/
def Nic.open_active (nic : Nic) (requester : ProtocolId) (identifier : Control) :
    NicOpenResult :=
  match identifier.get .networkIndex with
  | some (.u8 network) =>
    let sessionId : NicSessionId := ⟨requester, network⟩
    match assocGet nic.sessions sessionId with
    | some h => ⟨nic, .ok h⟩
    | none =>
      let h := nic.nextHandle
      ⟨⟨(sessionId, h) :: nic.sessions, h + 1⟩, .ok h⟩
  | _ => ⟨nic, .error (.identifierMissingKey .networkIndex)⟩

/-- The inbound half of `Machine::awake` from `machine.rs`: for each
pending message the machine calls
`tap.accept_incoming(message, 0, &mut protocol_context)` — the network
index argument is the literal 0 for every message. Each pending message
is tagged here with the index of the network that actually delivered
it, and the result lists the `(message, networkIndex)` argument pairs
passed to `accept_incoming`. -/
def Machine.awakeAcceptArgs (pending : List (Message × Nat)) : List (Message × Nat) :=
  pending.map (fun p => (p.1, 0))

theorem assocGet_cons_self {α β : Type} [DecidableEq α] (l : List (α × β))
    (a : α) (b : β) : assocGet ((a, b) :: l) a = some b := by
  simp [assocGet]

/-- C5: a Tap session's `send` prepends exactly the 2-byte big-endian
encoding of the upstream `ProtocolId` (layer byte, then code byte, i.e.
layer<<8 | code) and queues the framed message; `Nic::accept_incoming`
reads those first 2 bytes, dispatches the message sliced past the
header to the protocol they encode, and a frame shorter than 2 bytes or
whose 2 bytes do not decode to a known protocol id fails with an error
and dispatches nothing. -/
theorem Tap.framing_roundtrip_spec (s : TapSession) (m msg : Message)
    (protocols : List ProtocolId) (u : ProtocolId) (info : Control) (n : Nat)
    (hmem : u ∈ protocols) :
    (TapSession.send s m).outgoing =
      s.outgoing ++ [m.with_header s.upstream.toBytes]
    ∧ s.upstream.toBytes = [s.upstream.layer.toNat, s.upstream.identifier]
    ∧ be16 (byteAt s.upstream.toBytes 0) (byteAt s.upstream.toBytes 1) =
        s.upstream.layer.toNat * 256 + s.upstream.identifier
    ∧ Nic.accept_incoming protocols (m.with_header u.toBytes) n info =
        .ok ⟨u, m, info.insert .networkIndex (.u8 n)⟩
    ∧ (msg.bytes.length < 2 →
        Nic.accept_incoming protocols msg n info = .error .headerLength)
    ∧ (∀ a b rest, msg.bytes = a :: b :: rest → ProtocolId.fromBytes a b = none →
        Nic.accept_incoming protocols msg n info = .error .invalidProtocolId)
    ∧ (∀ a b rest p, msg.bytes = a :: b :: rest → ProtocolId.fromBytes a b = some p →
        p ∉ protocols →
        Nic.accept_incoming protocols msg n info = .error .protocolNotFound) := by
  obtain ⟨bs⟩ := msg
  refine ⟨rfl, rfl, ?_, ?_, ?_, ?_, ?_⟩
  · simp [ProtocolId.toBytes, byteAt, be16]
  · obtain ⟨l, i⟩ := u
    cases l <;>
      simp [Nic.accept_incoming, Message.with_header, ProtocolId.toBytes,
        ProtocolId.fromBytes, NetworkLayer.fromNat, NetworkLayer.toNat,
        Message.slice, hmem]
  · intro hlen
    match bs, hlen with
    | [], _ => rfl
    | [a], _ => rfl
  · intro a b rest hbytes hnone
    simp only at hbytes
    simp [Nic.accept_incoming, hbytes, hnone]
  · intro a b rest p hbytes hsome hnmem
    simp only at hbytes
    simp [Nic.accept_incoming, hbytes, hsome, hnmem]

/-- Witness for C5 at a concrete session, payload and protocol table. -/
theorem Tap.framing_roundtrip_spec_witness :
    (⟨.transport, 17⟩ : ProtocolId) ∈
      [(⟨.network, 4⟩ : ProtocolId), ⟨.transport, 17⟩] ∧
    ((TapSession.send ⟨0, [], ⟨.network, 4⟩⟩ ⟨[9]⟩).outgoing =
      [] ++ [Message.with_header ⟨[9]⟩ (ProtocolId.toBytes ⟨.network, 4⟩)]
    ∧ (ProtocolId.toBytes ⟨.network, 4⟩ : List Nat) =
        [NetworkLayer.toNat .network, 4]
    ∧ be16 (byteAt (ProtocolId.toBytes ⟨.network, 4⟩) 0)
        (byteAt (ProtocolId.toBytes ⟨.network, 4⟩) 1) =
        NetworkLayer.toNat .network * 256 + 4
    ∧ Nic.accept_incoming [⟨.network, 4⟩, ⟨.transport, 17⟩]
        (Message.with_header ⟨[9]⟩ (ProtocolId.toBytes ⟨.transport, 17⟩)) 3
        Control.new =
        .ok ⟨⟨.transport, 17⟩, ⟨[9]⟩, Control.new.insert .networkIndex (.u8 3)⟩
    ∧ ((⟨[7]⟩ : Message).bytes.length < 2 →
        Nic.accept_incoming [⟨.network, 4⟩, ⟨.transport, 17⟩] ⟨[7]⟩ 3 Control.new =
          .error .headerLength)
    ∧ (∀ a b rest, (⟨[7]⟩ : Message).bytes = a :: b :: rest →
        ProtocolId.fromBytes a b = none →
        Nic.accept_incoming [⟨.network, 4⟩, ⟨.transport, 17⟩] ⟨[7]⟩ 3 Control.new =
          .error .invalidProtocolId)
    ∧ (∀ a b rest p, (⟨[7]⟩ : Message).bytes = a :: b :: rest →
        ProtocolId.fromBytes a b = some p →
        p ∉ [(⟨.network, 4⟩ : ProtocolId), ⟨.transport, 17⟩] →
        Nic.accept_incoming [⟨.network, 4⟩, ⟨.transport, 17⟩] ⟨[7]⟩ 3 Control.new =
          .error .protocolNotFound)) :=
  ⟨by decide,
    Tap.framing_roundtrip_spec ⟨0, [], ⟨.network, 4⟩⟩ ⟨[9]⟩ ⟨[7]⟩
      [⟨.network, 4⟩, ⟨.transport, 17⟩] ⟨.transport, 17⟩ Control.new 3 (by decide)⟩

/-- C10: two successive `Nic::open_active` calls with the same
(upstream, network) key both succeed and return the same session
reference; the second returns the session from the first call's table
instead of creating a new one, the state is unchanged by the second
call, and the session table gains at most one entry overall. -/
theorem Nic.open_active_idempotent (nic : Nic) (u : ProtocolId) (n : Nat)
    (ident : Control) (hident : ident.get .networkIndex = some (.u8 n)) :
    ∃ h, (nic.open_active u ident).result = .ok h ∧
      ((nic.open_active u ident).nic.open_active u ident).result = .ok h ∧
      ((nic.open_active u ident).nic.open_active u ident).nic =
        (nic.open_active u ident).nic ∧
      (nic.open_active u ident).nic.sessions.length ≤ nic.sessions.length + 1 := by
  cases hl : assocGet nic.sessions ⟨u, n⟩ with
  | some h =>
      refine ⟨h, ?_, ?_, ?_, ?_⟩ <;>
        simp [Nic.open_active, hident, hl]
  | none =>
      refine ⟨nic.nextHandle, ?_, ?_, ?_, ?_⟩ <;>
        simp [Nic.open_active, hident, hl, assocGet_cons_self]

/-- Witness for C10 at a concrete Nic state and identifier. -/
theorem Nic.open_active_idempotent_witness :
    (Control.new.insert .networkIndex (.u8 0)).get .networkIndex =
      some (.u8 0) ∧
    (∃ h, ((⟨[], 5⟩ : Nic).open_active ⟨.network, 4⟩
        (Control.new.insert .networkIndex (.u8 0))).result = .ok h ∧
      (((⟨[], 5⟩ : Nic).open_active ⟨.network, 4⟩
          (Control.new.insert .networkIndex (.u8 0))).nic.open_active ⟨.network, 4⟩
          (Control.new.insert .networkIndex (.u8 0))).result = .ok h ∧
      (((⟨[], 5⟩ : Nic).open_active ⟨.network, 4⟩
          (Control.new.insert .networkIndex (.u8 0))).nic.open_active ⟨.network, 4⟩
          (Control.new.insert .networkIndex (.u8 0))).nic =
        ((⟨[], 5⟩ : Nic).open_active ⟨.network, 4⟩
          (Control.new.insert .networkIndex (.u8 0))).nic ∧
      ((⟨[], 5⟩ : Nic).open_active ⟨.network, 4⟩
          (Control.new.insert .networkIndex (.u8 0))).nic.sessions.length ≤
        ([] : List (NicSessionId × SessionHandle)).length + 1) :=
  ⟨by decide,
    Nic.open_active_idempotent ⟨[], 5⟩ ⟨.network, 4⟩ 0
      (Control.new.insert .networkIndex (.u8 0)) (by decide)⟩

/-- C4 (code bug): `Machine::awake` passes the literal network index 0
to `accept_incoming` for every pending message, so for a frame that
actually arrived on network 1 the upstream-visible NetworkIndex is 0,
not the arrival index. The frame here carries a 2-byte Udp protocol-id
header and one payload byte. -/
theorem Machine.awake_hardcodes_network_index :
    Machine.awakeAcceptArgs [(⟨[2, 17, 42]⟩, 1)] = [(⟨[2, 17, 42]⟩, 0)]
    ∧ Nic.accept_incoming [⟨.transport, 17⟩] ⟨[2, 17, 42]⟩ 0 Control.new =
        .ok ⟨⟨.transport, 17⟩, ⟨[42]⟩, Control.new.insert .networkIndex (.u8 0)⟩
    ∧ (Control.new.insert .networkIndex (.u8 0)).get .networkIndex = some (.u8 0)
    ∧ Primitive.u8 0 ≠ Primitive.u8 1 := by
  decide

/-- `Nic::ID` from `nic.rs`: (Link, 0). -/
def Nic.ID : ProtocolId := ⟨.link, 0⟩

/-- `Ipv4::ID` from `ipv4.rs`: (Network, 4). -/
def Ipv4.ID : ProtocolId := ⟨.network, 4⟩

/-- `Udp::ID` from `udp.rs`: (Transport, 17). -/
def Udp.ID : ProtocolId := ⟨.transport, 17⟩

/-- The IPv4 connection identifier (`Identifier` in `ipv4.rs`):
(local address, remote address). -/
structure Ipv4Identifier where
  localAddr : Nat
  remoteAddr : Nat
deriving DecidableEq, Repr

/-- `Ipv4Session` from `ipv4.rs`: upstream protocol, downstream session
reference, connection identifier. -/
structure Ipv4Session where
  upstream : ProtocolId
  downstream : SessionHandle
  identifier : Ipv4Identifier
deriving DecidableEq, Repr

/-- The `Ipv4` protocol state from `ipv4.rs`: listen bindings keyed by
local address, sessions keyed by (local, remote). The table stores the
session values (the `Arc` indirection is collapsed). -/
structure Ipv4 where
  listen_bindings : List (Nat × ProtocolId)
  sessions : List (Ipv4Identifier × Ipv4Session)
deriving DecidableEq, Repr

/-- `get_local` from `ipv4.rs`: the LocalAddress key of a `Control`,
missing key erring with `MissingSourceAddress` and a non-u32 value with
a primitive error. -/
def Ipv4.get_local (control : Control) : Except Ipv4Error Nat :=
  match control.get .localAddress with
  | none => .error .missingSourceAddress
  | some p =>
    match p.to_u32 with
    | .ok v => .ok v
    | .error e => .error (.primitive e)

/-- `get_remote` from `ipv4.rs`: the RemoteAddress key of a `Control`,
missing key erring with `MissingDestinationAddress`. -/
def Ipv4.get_remote (control : Control) : Except Ipv4Error Nat :=
  match control.get .remoteAddress with
  | none => .error .missingDestinationAddress
  | some p =>
    match p.to_u32 with
    | .ok v => .ok v
    | .error e => .error (.primitive e)

/-- Result of `Ipv4::open_active`: the updated Ipv4 and Nic states and
the created or returned session. -/
structure Ipv4OpenResult where
  ipv4 : Ipv4
  nic : Nic
  result : Except SimError Ipv4Session
deriving DecidableEq, Repr

/-- `Ipv4::open_active` from `ipv4.rs`: read local and remote addresses
from `context.info()`, fail with `SessionExists` if the (local, remote)
key is taken, otherwise insert NetworkIndex 0 into the participants
(the source's "Todo: Actually pick the right network index"), open the
downstream Nic session, build an `Ipv4Session` around it and insert
it. -/
def Ipv4.open_active (ipv4 : Ipv4) (nic : Nic) (upstream : ProtocolId)
    (participants : Control) (info : Control) : Ipv4OpenResult :=
  match Ipv4.get_local info with
  | .error e => ⟨ipv4, nic, .error (.ipv4 e)⟩
  | .ok localA =>
    match Ipv4.get_remote info with
    | .error e => ⟨ipv4, nic, .error (.ipv4 e)⟩
    | .ok remoteA =>
      let key : Ipv4Identifier := ⟨localA, remoteA⟩
      match assocGet ipv4.sessions key with
      | some _ => ⟨ipv4, nic, .error (.ipv4 (.sessionExists key.localAddr key.remoteAddr))⟩
      | none =>
        let participants1 := participants.insert .networkIndex (.u8 0)
        let nicResult := nic.open_active Ipv4.ID participants1
        match nicResult.result with
        | .error e => ⟨ipv4, nicResult.nic, .error (.nic e)⟩
        | .ok h =>
          let session : Ipv4Session := ⟨upstream, h, key⟩
          ⟨{ ipv4 with sessions := (key, session) :: ipv4.sessions }, nicResult.nic,
            .ok session⟩

/-- `Ipv4::listen` from `ipv4.rs`: read the local address from the
participants; fail with `BindingExists` if it is already bound,
otherwise record the binding. Returns the updated state and the call
result. -/
def Ipv4.listen (ipv4 : Ipv4) (upstream : ProtocolId) (participants : Control) :
    Ipv4 × Except SimError Unit :=
  match Ipv4.get_local participants with
  | .error e => (ipv4, .error (.ipv4 e))
  | .ok localA =>
    match assocGet ipv4.listen_bindings localA with
    | some _ => (ipv4, .error (.ipv4 (.bindingExists localA)))
    | none =>
      ({ ipv4 with listen_bindings := (localA, upstream) :: ipv4.listen_bindings },
        .ok ())

/-- Modelled from the external `etherparse` crate:
`Ipv4HeaderSlice::from_slice` on the 20 collected bytes succeeds when at
least 20 bytes are present, the version nibble is 4 and the IHL nibble
is 5 (any larger IHL would demand more than the 20 collected bytes),
and exposes the (source, destination) addresses. Its distinct read
errors are collapsed to one value. -/
def etherparseIpv4SrcDst (bs : List Nat) :
    Except EtherparseError (Nat × Nat) :=
  if 20 ≤ bs.length ∧ byteAt bs 0 / 16 = 4 ∧ byteAt bs 0 % 16 = 5 then
    .ok (be32 (byteAt bs 12) (byteAt bs 13) (byteAt bs 14) (byteAt bs 15),
      be32 (byteAt bs 16) (byteAt bs 17) (byteAt bs 18) (byteAt bs 19))
  else .error .readError

/-- `Ipv4Session::recv` from `ipv4.rs`: re-parse the first twenty bytes,
insert RemoteAddress=source then LocalAddress=destination into
`context.info`, slice the message past the 20-byte header and call the
upstream protocol's `demux` (`context.protocol(self.upstream)?` failing
when the protocol table lacks the upstream). The `ok` payload records
the upstream demux invocation. -/
def Ipv4Session.recv (s : Ipv4Session) (protocols : List ProtocolId)
    (message : Message) (info : Control) : Except SimError DemuxCall :=
  match etherparseIpv4SrcDst message.bytes with
  | .error e => .error (.etherparse e)
  | .ok (src, dst) =>
    let info1 := (info.insert .remoteAddress (.u32 src)).insert .localAddress (.u32 dst)
    if s.upstream ∈ protocols then .ok ⟨s.upstream, message.slice 20, info1⟩
    else .error (.noSuchProtocol s.upstream)

/-- Result of `Ipv4::demux`: the updated protocol state, the context
info after the demux-inserted keys, and the outcome (the upstream demux
invocation the frame results in, or the error). -/
structure Ipv4DemuxResult where
  ipv4 : Ipv4
  info : Control
  outcome : Except SimError DemuxCall
deriving DecidableEq, Repr

/-- `Ipv4::demux` from `ipv4.rs`: parse the header, insert
LocalAddress=destination and RemoteAddress=source into `context.info`,
look the session up by (destination, source) and deliver through its
`recv`; on a miss, consult the listen table for the destination and
fail with `MissingListenBinding` when absent. On a hit in the listen
table the source delegates to the upstream protocol's `open_passive`,
which is unfinished in the source (`Ipv4::open_passive` is `todo!()`
and the upstream implementations are not in the tree); modelled from
the spec: the passive path builds an `Ipv4Session` whose downstream is
the session that delivered the frame (the `downstream` argument) and
whose upstream is the listen binding, inserts it, and delivers through
its `recv` (header-stripped message, updated info). -/
def Ipv4.demux (ipv4 : Ipv4) (message : Message) (downstream : SessionHandle)
    (protocols : List ProtocolId) (info : Control) : Ipv4DemuxResult :=
  match etherparseIpv4SrcDst message.bytes with
  | .error e => ⟨ipv4, info, .error (.etherparse e)⟩
  | .ok (src, dst) =>
    let identifier : Ipv4Identifier := ⟨dst, src⟩
    let info1 := (info.insert .localAddress (.u32 dst)).insert .remoteAddress (.u32 src)
    match assocGet ipv4.sessions identifier with
    | some session => ⟨ipv4, info1, session.recv protocols message info1⟩
    | none =>
      match assocGet ipv4.listen_bindings dst with
      | some binding =>
        let session : Ipv4Session := ⟨binding, downstream, identifier⟩
        ⟨{ ipv4 with sessions := (identifier, session) :: ipv4.sessions }, info1,
          session.recv protocols message info1⟩
      | none => ⟨ipv4, info1, .error (.ipv4 (.missingListenBinding dst))⟩

/-- The source address a well-formed IPv4 header carries (bytes 12-15,
big-endian). -/
def ipv4Src (m : Message) : Nat :=
  be32 (byteAt m.bytes 12) (byteAt m.bytes 13) (byteAt m.bytes 14) (byteAt m.bytes 15)

/-- The destination address a well-formed IPv4 header carries (bytes
16-19, big-endian). -/
def ipv4Dst (m : Message) : Nat :=
  be32 (byteAt m.bytes 16) (byteAt m.bytes 17) (byteAt m.bytes 18) (byteAt m.bytes 19)

/-- C2: on an inbound frame whose (dest, src) key has no session, an
Ipv4 listen binding for dest yields a passive session whose downstream
is the delivering session, inserted into the session table, and the
upstream's demux is invoked with the message sliced past the 20-byte
header under a context whose Control has LocalAddress=dest and
RemoteAddress=src; without a listen binding the demux fails with
`MissingListenBinding` and the state is unchanged. -/
theorem Ipv4.demux_passive_spec (ipv4 : Ipv4) (m : Message) (d : SessionHandle)
    (protocols : List ProtocolId) (info : Control)
    (h20 : 20 ≤ m.bytes.length) (hver : byteAt m.bytes 0 / 16 = 4)
    (hihl : byteAt m.bytes 0 % 16 = 5)
    (hmiss : assocGet ipv4.sessions ⟨ipv4Dst m, ipv4Src m⟩ = none) :
    (∀ up, assocGet ipv4.listen_bindings (ipv4Dst m) = some up → up ∈ protocols →
      (ipv4.demux m d protocols info).ipv4.sessions =
        (⟨ipv4Dst m, ipv4Src m⟩,
          (⟨up, d, ⟨ipv4Dst m, ipv4Src m⟩⟩ : Ipv4Session)) :: ipv4.sessions ∧
      ∃ i2, (ipv4.demux m d protocols info).outcome = .ok ⟨up, m.slice 20, i2⟩ ∧
        i2.get .localAddress = some (.u32 (ipv4Dst m)) ∧
        i2.get .remoteAddress = some (.u32 (ipv4Src m)))
    ∧ (assocGet ipv4.listen_bindings (ipv4Dst m) = none →
        ipv4.demux m d protocols info =
          ⟨ipv4,
            (info.insert .localAddress (.u32 (ipv4Dst m))).insert .remoteAddress
              (.u32 (ipv4Src m)),
            .error (.ipv4 (.missingListenBinding (ipv4Dst m)))⟩) := by
  have hparse : etherparseIpv4SrcDst m.bytes = .ok (ipv4Src m, ipv4Dst m) := by
    unfold etherparseIpv4SrcDst ipv4Src ipv4Dst
    rw [if_pos ⟨h20, hver, hihl⟩]
  constructor
  · intro up hbind hupmem
    simp only [Ipv4.demux, hparse, hmiss, hbind]
    refine ⟨trivial, ?_⟩
    simp only [Ipv4Session.recv, hparse, if_pos hupmem]
    refine ⟨_, rfl, ?_, ?_⟩
    · exact Control.get_insert_self _ _ _
    · rw [Control.get_insert_ne _ _ _ _ (by decide)]
      exact Control.get_insert_self _ _ _
  · intro hnone
    simp only [Ipv4.demux, hparse, hmiss, hnone]

/-- Witness for C2 at a concrete frame (the sample header plus one
payload byte), a listen binding for the destination and a fresh session
table. -/
theorem Ipv4.demux_passive_spec_witness :
    (20 ≤ (Message.mk (ipv4SampleHeader ++ [99])).bytes.length ∧
     byteAt (Message.mk (ipv4SampleHeader ++ [99])).bytes 0 / 16 = 4 ∧
     byteAt (Message.mk (ipv4SampleHeader ++ [99])).bytes 0 % 16 = 5 ∧
     assocGet (Ipv4.mk [(ipv4Dst ⟨ipv4SampleHeader ++ [99]⟩, ⟨.transport, 17⟩)]
         []).sessions
       ⟨ipv4Dst ⟨ipv4SampleHeader ++ [99]⟩, ipv4Src ⟨ipv4SampleHeader ++ [99]⟩⟩ =
       none) ∧
    ((∀ up,
        assocGet (Ipv4.mk [(ipv4Dst ⟨ipv4SampleHeader ++ [99]⟩, ⟨.transport, 17⟩)]
            []).listen_bindings
          (ipv4Dst ⟨ipv4SampleHeader ++ [99]⟩) = some up →
        up ∈ [(⟨.transport, 17⟩ : ProtocolId)] →
      ((Ipv4.mk [(ipv4Dst ⟨ipv4SampleHeader ++ [99]⟩, ⟨.transport, 17⟩)] []).demux
          ⟨ipv4SampleHeader ++ [99]⟩ 5 [⟨.transport, 17⟩] Control.new).ipv4.sessions =
        (⟨ipv4Dst ⟨ipv4SampleHeader ++ [99]⟩, ipv4Src ⟨ipv4SampleHeader ++ [99]⟩⟩,
          (⟨up, 5, ⟨ipv4Dst ⟨ipv4SampleHeader ++ [99]⟩,
            ipv4Src ⟨ipv4SampleHeader ++ [99]⟩⟩⟩ : Ipv4Session)) :: [] ∧
      ∃ i2, ((Ipv4.mk [(ipv4Dst ⟨ipv4SampleHeader ++ [99]⟩, ⟨.transport, 17⟩)]
            []).demux ⟨ipv4SampleHeader ++ [99]⟩ 5 [⟨.transport, 17⟩]
            Control.new).outcome =
          .ok ⟨up, Message.slice ⟨ipv4SampleHeader ++ [99]⟩ 20, i2⟩ ∧
        i2.get .localAddress = some (.u32 (ipv4Dst ⟨ipv4SampleHeader ++ [99]⟩)) ∧
        i2.get .remoteAddress = some (.u32 (ipv4Src ⟨ipv4SampleHeader ++ [99]⟩)))
    ∧ (assocGet (Ipv4.mk [(ipv4Dst ⟨ipv4SampleHeader ++ [99]⟩, ⟨.transport, 17⟩)]
          []).listen_bindings (ipv4Dst ⟨ipv4SampleHeader ++ [99]⟩) = none →
        (Ipv4.mk [(ipv4Dst ⟨ipv4SampleHeader ++ [99]⟩, ⟨.transport, 17⟩)] []).demux
            ⟨ipv4SampleHeader ++ [99]⟩ 5 [⟨.transport, 17⟩] Control.new =
          ⟨Ipv4.mk [(ipv4Dst ⟨ipv4SampleHeader ++ [99]⟩, ⟨.transport, 17⟩)] [],
            (Control.new.insert .localAddress
              (.u32 (ipv4Dst ⟨ipv4SampleHeader ++ [99]⟩))).insert .remoteAddress
              (.u32 (ipv4Src ⟨ipv4SampleHeader ++ [99]⟩)),
            .error (.ipv4 (.missingListenBinding
              (ipv4Dst ⟨ipv4SampleHeader ++ [99]⟩)))⟩)) :=
  ⟨⟨by decide, by decide, by decide, by decide⟩,
    Ipv4.demux_passive_spec
      (Ipv4.mk [(ipv4Dst ⟨ipv4SampleHeader ++ [99]⟩, ⟨.transport, 17⟩)] [])
      ⟨ipv4SampleHeader ++ [99]⟩ 5 [⟨.transport, 17⟩] Control.new
      (by decide) (by decide) (by decide) (by decide)⟩

/-- The UDP connection identifier (`SessionId` in the missing
`udp_session` module; its four fields are fixed by the construction
sites in `udp.rs`): the 4-tuple of addresses and ports. -/
structure UdpSessionId where
  local_address : Nat
  local_port : Nat
  remote_address : Nat
  remote_port : Nat
deriving DecidableEq, Repr

/-- `ListenId` from `udp.rs`: (local address, local port). -/
structure UdpListenId where
  address : Nat
  port : Nat
deriving DecidableEq, Repr

/-- `UdpSession` (from the missing `udp_session` module; its fields are
fixed by the construction sites in `udp.rs`): upstream protocol,
downstream session reference, connection identifier. -/
structure UdpSession where
  upstream : ProtocolId
  downstream : SessionHandle
  identifier : UdpSessionId
deriving DecidableEq, Repr

/-- The `Udp` protocol state from `udp.rs`: listen bindings keyed by
(address, port) and sessions keyed by the 4-tuple. -/
structure Udp where
  listen_bindings : List (UdpListenId × ProtocolId)
  sessions : List (UdpSessionId × UdpSession)
deriving DecidableEq, Repr

/-- Result of `Udp::open`: the updated state and the outcome
(`panicked` models the source's `.unwrap()` on the Control reads). -/
structure UdpOpenResult where
  udp : Udp
  outcome : Outcome UdpSession
deriving DecidableEq, Repr

/-- `Udp::open` from `udp.rs`: read LocalPort, RemotePort, LocalAddress
and RemoteAddress from the participants with
`try_from(...).unwrap()` — a missing key or wrong primitive type
panics. Fail with `SessionExists` if the 4-tuple is taken, otherwise
obtain the downstream Ipv4 session and insert the new `UdpSession`.
`downstreamResult` stands for the
`context.protocol(Ipv4::ID)...open(Self::ID, participants, context)`
call, whose implementation (the refactored Ipv4) is not in the source
tree. -/
def Udp.open (udp : Udp) (upstream : ProtocolId) (participants : Control)
    (downstreamResult : Except SimError SessionHandle) : UdpOpenResult :=
  match participants.readU16 .localPort with
  | none => ⟨udp, .panicked "unwrap"⟩
  | some local_port =>
  match participants.readU16 .remotePort with
  | none => ⟨udp, .panicked "unwrap"⟩
  | some remote_port =>
  match participants.readU32 .localAddress with
  | none => ⟨udp, .panicked "unwrap"⟩
  | some local_address =>
  match participants.readU32 .remoteAddress with
  | none => ⟨udp, .panicked "unwrap"⟩
  | some remote_address =>
  let identifier : UdpSessionId :=
    ⟨local_address, local_port, remote_address, remote_port⟩
  match assocGet udp.sessions identifier with
  | some _ => ⟨udp, .err (.udp .sessionExists)⟩
  | none =>
    match downstreamResult with
    | .error e => ⟨udp, .err e⟩
    | .ok downstream =>
      let session : UdpSession := ⟨upstream, downstream, identifier⟩
      ⟨{ udp with sessions := (identifier, session) :: udp.sessions }, .ok session⟩

/-- Result of `Udp::listen`: the updated Udp and forwarded-to Ipv4
states and the outcome. -/
structure UdpListenResult where
  udp : Udp
  ipv4 : Ipv4
  outcome : Outcome Unit
deriving DecidableEq, Repr

/-- `Udp::listen` from `udp.rs`: read LocalPort and LocalAddress with
`try_from(...).unwrap()` (panicking on a missing key or wrong type),
unconditionally insert the binding — `HashMap::insert`, overwriting any
existing one — and forward the listen to Ipv4 with the same
participants, returning its result. -/
def Udp.listen (udp : Udp) (ipv4 : Ipv4) (upstream : ProtocolId)
    (participants : Control) : UdpListenResult :=
  match participants.readU16 .localPort with
  | none => ⟨udp, ipv4, .panicked "unwrap"⟩
  | some port =>
  match participants.readU32 .localAddress with
  | none => ⟨udp, ipv4, .panicked "unwrap"⟩
  | some address =>
  let identifier : UdpListenId := ⟨address, port⟩
  let udp1 := { udp with
    listen_bindings := assocInsert udp.listen_bindings identifier upstream }
  match Ipv4.listen ipv4 Udp.ID participants with
  | (ipv41, .ok _) => ⟨udp1, ipv41, .ok ()⟩
  | (ipv41, .error e) => ⟨udp1, ipv41, .err e⟩

/-- Modelled from the external `etherparse` crate:
`UdpHeaderSlice::source_port`, the first two header bytes big-endian. -/
def udpSrcPort (m : Message) : Nat := be16 (byteAt m.bytes 0) (byteAt m.bytes 1)

/-- Modelled from the external `etherparse` crate:
`UdpHeaderSlice::destination_port`, header bytes 2-3 big-endian. -/
def udpDstPort (m : Message) : Nat := be16 (byteAt m.bytes 2) (byteAt m.bytes 3)

/-- Result of `Udp::demux`: the updated state, the context info after
the port keys are applied, and the outcome: the session the sliced
message is delivered to (`session.receive(message, context)` in the
source, whose `UdpSession` implementation is not in the tree), or the
error, or a panic. -/
structure UdpDemuxResult where
  udp : Udp
  info : Control
  outcome : Outcome (UdpSession × Message)
deriving DecidableEq, Repr

/-- `Udp::demux` from `udp.rs`: parse the first 8 bytes as the UDP
header (the external `etherparse` `UdpHeaderSlice::from_slice`, which
fails on fewer than 8 bytes), read LocalAddress and RemoteAddress from
`context.info` with `.unwrap()` (panicking when absent), derive
LocalPort from the destination port and RemotePort from the source
port, write both ports into `context.info`, slice the message past the
header, and deliver it to the session keyed by the 4-tuple —
materializing the session from a matching listen binding with
`context.current_session().expect(...)` as its downstream when needed —
or fail with `MissingSession`. -/
def Udp.demux (udp : Udp) (message : Message) (info : Control)
    (currentSession : Option SessionHandle) : UdpDemuxResult :=
  if message.bytes.length < 8 then ⟨udp, info, .err (.etherparse .readError)⟩ else
  let remote_port := udpSrcPort message
  let local_port := udpDstPort message
  match info.readU32 .localAddress with
  | none => ⟨udp, info, .panicked "unwrap"⟩
  | some local_address =>
  match info.readU32 .remoteAddress with
  | none => ⟨udp, info, .panicked "unwrap"⟩
  | some remote_address =>
  let session_id : UdpSessionId :=
    ⟨local_address, local_port, remote_address, remote_port⟩
  let info1 := (info.insert .localPort (.u16 local_port)).insert .remotePort
    (.u16 remote_port)
  let sliced := message.slice 8
  match assocGet udp.sessions session_id with
  | some session => ⟨udp, info1, .ok (session, sliced)⟩
  | none =>
    match assocGet udp.listen_bindings ⟨local_address, local_port⟩ with
    | some binding =>
      match currentSession with
      | none => ⟨udp, info1, .panicked "No current session"⟩
      | some cs =>
        let session : UdpSession := ⟨binding, cs, session_id⟩
        ⟨{ udp with sessions := (session_id, session) :: udp.sessions }, info1,
          .ok (session, sliced)⟩
    | none => ⟨udp, info1, .err (.udp .missingSession)⟩

/-- C1: `Udp::demux` on a context carrying LocalAddress and
RemoteAddress parses the first 8 bytes as the UDP header, derives
LocalPort from the destination port and RemotePort from the source
port, writes both ports into `context.info`, and delivers the message
sliced past the header to the session keyed by the 4-tuple; on a miss
it materializes a session from the matching listen binding with
`context.current_session()` as downstream and inserts it; with neither
it fails with `MissingSession`, tables unchanged. -/
theorem Udp.demux_spec (udp : Udp) (m : Message) (info : Control)
    (cs : Option SessionHandle) (la ra : Nat)
    (hla : info.readU32 .localAddress = some la)
    (hra : info.readU32 .remoteAddress = some ra)
    (hlen : 8 ≤ m.bytes.length) :
    (∀ s, assocGet udp.sessions ⟨la, udpDstPort m, ra, udpSrcPort m⟩ = some s →
      udp.demux m info cs =
        ⟨udp,
          (info.insert .localPort (.u16 (udpDstPort m))).insert .remotePort
            (.u16 (udpSrcPort m)),
          .ok (s, m.slice 8)⟩)
    ∧ (assocGet udp.sessions ⟨la, udpDstPort m, ra, udpSrcPort m⟩ = none →
        ∀ up, assocGet udp.listen_bindings ⟨la, udpDstPort m⟩ = some up →
        ∀ h, cs = some h →
        udp.demux m info cs =
          ⟨{ udp with sessions :=
              (⟨la, udpDstPort m, ra, udpSrcPort m⟩,
                (⟨up, h, ⟨la, udpDstPort m, ra, udpSrcPort m⟩⟩ : UdpSession)) ::
                udp.sessions },
            (info.insert .localPort (.u16 (udpDstPort m))).insert .remotePort
              (.u16 (udpSrcPort m)),
            .ok (⟨up, h, ⟨la, udpDstPort m, ra, udpSrcPort m⟩⟩, m.slice 8)⟩)
    ∧ (assocGet udp.sessions ⟨la, udpDstPort m, ra, udpSrcPort m⟩ = none →
        assocGet udp.listen_bindings ⟨la, udpDstPort m⟩ = none →
        udp.demux m info cs =
          ⟨udp,
            (info.insert .localPort (.u16 (udpDstPort m))).insert .remotePort
              (.u16 (udpSrcPort m)),
            .err (.udp .missingSession)⟩)
    ∧ ((info.insert .localPort (.u16 (udpDstPort m))).insert .remotePort
          (.u16 (udpSrcPort m))).get .localPort = some (.u16 (udpDstPort m))
    ∧ ((info.insert .localPort (.u16 (udpDstPort m))).insert .remotePort
          (.u16 (udpSrcPort m))).get .remotePort = some (.u16 (udpSrcPort m)) := by
  have hnl : ¬ m.bytes.length < 8 := by omega
  refine ⟨?_, ?_, ?_, ?_, ?_⟩
  · intro s hs
    simp [Udp.demux, hla, hra, if_neg hnl, hs]
  · intro hs up hb h hcs
    subst hcs
    simp [Udp.demux, hla, hra, if_neg hnl, hs, hb]
  · intro hs hb
    simp [Udp.demux, hla, hra, if_neg hnl, hs, hb]
  · rw [Control.get_insert_ne _ _ _ _ (by decide)]
    exact Control.get_insert_self _ _ _
  · exact Control.get_insert_self _ _ _

/-- A concrete UDP frame: source port 0xDEAD, destination port 0xBEEF,
length 12, checksum 0, three payload bytes. -/
def udpSampleFrame : Message := ⟨[0xde, 0xad, 0xbe, 0xef, 0, 12, 0, 0, 1, 2, 3]⟩

/-- A concrete context Control carrying LocalAddress 7 and
RemoteAddress 9. -/
def udpSampleInfo : Control :=
  (Control.new.insert .localAddress (.u32 7)).insert .remoteAddress (.u32 9)

/-- A concrete Udp state: one listen binding at (address 7, port
0xBEEF), no sessions. -/
def udpSampleState : Udp := ⟨[(⟨7, 0xbeef⟩, ⟨.user, 0⟩)], []⟩

/-- Witness for C1 at the concrete frame, context and Udp state. -/
theorem Udp.demux_spec_witness :
    (udpSampleInfo.readU32 .localAddress = some 7 ∧
     udpSampleInfo.readU32 .remoteAddress = some 9 ∧
     8 ≤ udpSampleFrame.bytes.length) ∧
    ((∀ s, assocGet udpSampleState.sessions
        ⟨7, udpDstPort udpSampleFrame, 9, udpSrcPort udpSampleFrame⟩ = some s →
      udpSampleState.demux udpSampleFrame udpSampleInfo (some 3) =
        ⟨udpSampleState,
          (udpSampleInfo.insert .localPort
            (.u16 (udpDstPort udpSampleFrame))).insert .remotePort
            (.u16 (udpSrcPort udpSampleFrame)),
          .ok (s, udpSampleFrame.slice 8)⟩)
    ∧ (assocGet udpSampleState.sessions
          ⟨7, udpDstPort udpSampleFrame, 9, udpSrcPort udpSampleFrame⟩ = none →
        ∀ up, assocGet udpSampleState.listen_bindings
          ⟨7, udpDstPort udpSampleFrame⟩ = some up →
        ∀ h, (some 3 : Option SessionHandle) = some h →
        udpSampleState.demux udpSampleFrame udpSampleInfo (some 3) =
          ⟨{ udpSampleState with sessions :=
              (⟨7, udpDstPort udpSampleFrame, 9, udpSrcPort udpSampleFrame⟩,
                (⟨up, h, ⟨7, udpDstPort udpSampleFrame, 9,
                  udpSrcPort udpSampleFrame⟩⟩ : UdpSession)) ::
                udpSampleState.sessions },
            (udpSampleInfo.insert .localPort
              (.u16 (udpDstPort udpSampleFrame))).insert .remotePort
              (.u16 (udpSrcPort udpSampleFrame)),
            .ok (⟨up, h, ⟨7, udpDstPort udpSampleFrame, 9,
              udpSrcPort udpSampleFrame⟩⟩, udpSampleFrame.slice 8)⟩)
    ∧ (assocGet udpSampleState.sessions
          ⟨7, udpDstPort udpSampleFrame, 9, udpSrcPort udpSampleFrame⟩ = none →
        assocGet udpSampleState.listen_bindings
          ⟨7, udpDstPort udpSampleFrame⟩ = none →
        udpSampleState.demux udpSampleFrame udpSampleInfo (some 3) =
          ⟨udpSampleState,
            (udpSampleInfo.insert .localPort
              (.u16 (udpDstPort udpSampleFrame))).insert .remotePort
              (.u16 (udpSrcPort udpSampleFrame)),
            .err (.udp .missingSession)⟩)
    ∧ ((udpSampleInfo.insert .localPort
          (.u16 (udpDstPort udpSampleFrame))).insert .remotePort
          (.u16 (udpSrcPort udpSampleFrame))).get .localPort =
        some (.u16 (udpDstPort udpSampleFrame))
    ∧ ((udpSampleInfo.insert .localPort
          (.u16 (udpDstPort udpSampleFrame))).insert .remotePort
          (.u16 (udpSrcPort udpSampleFrame))).get .remotePort =
        some (.u16 (udpSrcPort udpSampleFrame))) :=
  ⟨⟨by decide, by decide, by decide⟩,
    Udp.demux_spec udpSampleState udpSampleFrame udpSampleInfo (some 3) 7 9
      (by decide) (by decide) (by decide)⟩

/-- C6: for Ipv4 (keyed by (LocalAddress, RemoteAddress)) and Udp
(keyed by the 4-tuple), of two successive active opens with the same
fresh connection identifier, the first succeeds and inserts a session
and the second fails with `SessionExists`, leaving the session table
unchanged. -/
theorem open_active_session_exists_spec
    (ipv4 : Ipv4) (nic : Nic) (udp : Udp) (u1 u2 : ProtocolId)
    (participants info pu : Control) (la ra : Nat)
    (hl : Ipv4.get_local info = .ok la) (hr : Ipv4.get_remote info = .ok ra)
    (hfresh : assocGet ipv4.sessions ⟨la, ra⟩ = none)
    (lp rp ula ura : Nat) (d : SessionHandle)
    (hup : pu.readU16 .localPort = some lp)
    (hurp : pu.readU16 .remotePort = some rp)
    (hula : pu.readU32 .localAddress = some ula)
    (hura : pu.readU32 .remoteAddress = some ura)
    (hufresh : assocGet udp.sessions ⟨ula, lp, ura, rp⟩ = none) :
    (∃ s, (ipv4.open_active nic u1 participants info).result = .ok s ∧
      (ipv4.open_active nic u1 participants info).ipv4.sessions =
        (⟨la, ra⟩, s) :: ipv4.sessions ∧
      ((ipv4.open_active nic u1 participants info).ipv4.open_active
          (ipv4.open_active nic u1 participants info).nic u2 participants
          info).result = .error (.ipv4 (.sessionExists la ra)) ∧
      ((ipv4.open_active nic u1 participants info).ipv4.open_active
          (ipv4.open_active nic u1 participants info).nic u2 participants
          info).ipv4 = (ipv4.open_active nic u1 participants info).ipv4)
    ∧ (∃ s, (udp.open u1 pu (.ok d)).outcome = .ok s ∧
        (udp.open u1 pu (.ok d)).udp.sessions =
          (⟨ula, lp, ura, rp⟩, s) :: udp.sessions ∧
        ((udp.open u1 pu (.ok d)).udp.open u2 pu (.ok d)).outcome =
          .err (.udp .sessionExists) ∧
        ((udp.open u1 pu (.ok d)).udp.open u2 pu (.ok d)).udp =
          (udp.open u1 pu (.ok d)).udp) := by
  constructor
  · rcases hn : assocGet nic.sessions ⟨Ipv4.ID, 0⟩ with _ | h
    · refine ⟨⟨u1, nic.nextHandle, ⟨la, ra⟩⟩, ?_, ?_, ?_, ?_⟩ <;>
        simp [Ipv4.open_active, hl, hr, hfresh, Nic.open_active,
          Control.get_insert_self, hn, assocGet_cons_self]
    · refine ⟨⟨u1, h, ⟨la, ra⟩⟩, ?_, ?_, ?_, ?_⟩ <;>
        simp [Ipv4.open_active, hl, hr, hfresh, Nic.open_active,
          Control.get_insert_self, hn, assocGet_cons_self]
  · refine ⟨⟨u1, d, ⟨ula, lp, ura, rp⟩⟩, ?_, ?_, ?_, ?_⟩ <;>
      simp [Udp.open, hup, hurp, hula, hura, hufresh, assocGet_cons_self]

/-- A concrete participants Control carrying all four Udp open keys:
LocalPort 10, RemotePort 20, LocalAddress 7, RemoteAddress 9. -/
def udpSampleParticipants : Control :=
  (((Control.new.insert .localPort (.u16 10)).insert .remotePort
    (.u16 20)).insert .localAddress (.u32 7)).insert .remoteAddress (.u32 9)

/-- Witness for C6 at empty protocol states and concrete participant
Controls. -/
theorem open_active_session_exists_spec_witness :
    (Ipv4.get_local udpSampleInfo = .ok 7 ∧
     Ipv4.get_remote udpSampleInfo = .ok 9 ∧
     assocGet (Ipv4.mk [] []).sessions ⟨7, 9⟩ = none ∧
     udpSampleParticipants.readU16 .localPort = some 10 ∧
     udpSampleParticipants.readU16 .remotePort = some 20 ∧
     udpSampleParticipants.readU32 .localAddress = some 7 ∧
     udpSampleParticipants.readU32 .remoteAddress = some 9 ∧
     assocGet (Udp.mk [] []).sessions ⟨7, 10, 9, 20⟩ = none) ∧
    ((∃ s, ((Ipv4.mk [] []).open_active ⟨[], 0⟩ ⟨.transport, 17⟩ Control.new
        udpSampleInfo).result = .ok s ∧
      ((Ipv4.mk [] []).open_active ⟨[], 0⟩ ⟨.transport, 17⟩ Control.new
        udpSampleInfo).ipv4.sessions = (⟨7, 9⟩, s) :: (Ipv4.mk [] []).sessions ∧
      (((Ipv4.mk [] []).open_active ⟨[], 0⟩ ⟨.transport, 17⟩ Control.new
          udpSampleInfo).ipv4.open_active
          ((Ipv4.mk [] []).open_active ⟨[], 0⟩ ⟨.transport, 17⟩ Control.new
            udpSampleInfo).nic ⟨.user, 0⟩ Control.new udpSampleInfo).result =
        .error (.ipv4 (.sessionExists 7 9)) ∧
      (((Ipv4.mk [] []).open_active ⟨[], 0⟩ ⟨.transport, 17⟩ Control.new
          udpSampleInfo).ipv4.open_active
          ((Ipv4.mk [] []).open_active ⟨[], 0⟩ ⟨.transport, 17⟩ Control.new
            udpSampleInfo).nic ⟨.user, 0⟩ Control.new udpSampleInfo).ipv4 =
        ((Ipv4.mk [] []).open_active ⟨[], 0⟩ ⟨.transport, 17⟩ Control.new
          udpSampleInfo).ipv4)
    ∧ (∃ s, ((Udp.mk [] []).open ⟨.transport, 17⟩ udpSampleParticipants
          (.ok 4)).outcome = .ok s ∧
        ((Udp.mk [] []).open ⟨.transport, 17⟩ udpSampleParticipants
          (.ok 4)).udp.sessions = (⟨7, 10, 9, 20⟩, s) :: (Udp.mk [] []).sessions ∧
        (((Udp.mk [] []).open ⟨.transport, 17⟩ udpSampleParticipants
            (.ok 4)).udp.open ⟨.user, 0⟩ udpSampleParticipants (.ok 4)).outcome =
          .err (.udp .sessionExists) ∧
        (((Udp.mk [] []).open ⟨.transport, 17⟩ udpSampleParticipants
            (.ok 4)).udp.open ⟨.user, 0⟩ udpSampleParticipants (.ok 4)).udp =
          ((Udp.mk [] []).open ⟨.transport, 17⟩ udpSampleParticipants
            (.ok 4)).udp)) :=
  ⟨⟨by decide, by decide, by decide, by decide, by decide, by decide, by decide,
    by decide⟩,
    open_active_session_exists_spec (Ipv4.mk [] []) ⟨[], 0⟩ (Udp.mk [] [])
      ⟨.transport, 17⟩ ⟨.user, 0⟩ Control.new udpSampleInfo udpSampleParticipants
      7 9 (by decide) (by decide) (by decide) 10 20 7 9 4 (by decide) (by decide)
      (by decide) (by decide) (by decide)⟩

/-- A concrete listen participants Control: LocalAddress 1, LocalPort 2. -/
def listenSampleParts : Control :=
  (Control.new.insert .localAddress (.u32 1)).insert .localPort (.u16 2)

/-- C7 counterexample: two `Udp::listen` calls with the same
(LocalAddress, LocalPort) and different upstreams. The second call does
return `BindingExists` (propagated from the forwarded Ipv4 listen), but
it overwrites the Udp binding's upstream before failing — refuting the
claim's "the first binding (its upstream ProtocolId) is unchanged". -/
theorem Udp.listen_perturbs_binding_cex :
    assocGet (Udp.listen ⟨[], []⟩ ⟨[], []⟩ ⟨.user, 0⟩
        listenSampleParts).udp.listen_bindings ⟨1, 2⟩ = some ⟨.user, 0⟩
    ∧ (Udp.listen ⟨[], []⟩ ⟨[], []⟩ ⟨.user, 0⟩ listenSampleParts).outcome = .ok ()
    ∧ (Udp.listen (Udp.listen ⟨[], []⟩ ⟨[], []⟩ ⟨.user, 0⟩ listenSampleParts).udp
        (Udp.listen ⟨[], []⟩ ⟨[], []⟩ ⟨.user, 0⟩ listenSampleParts).ipv4
        ⟨.user, 1⟩ listenSampleParts).outcome = .err (.ipv4 (.bindingExists 1))
    ∧ assocGet (Udp.listen
        (Udp.listen ⟨[], []⟩ ⟨[], []⟩ ⟨.user, 0⟩ listenSampleParts).udp
        (Udp.listen ⟨[], []⟩ ⟨[], []⟩ ⟨.user, 0⟩ listenSampleParts).ipv4
        ⟨.user, 1⟩ listenSampleParts).udp.listen_bindings ⟨1, 2⟩ =
      some ⟨.user, 1⟩ := by
  decide

/-- C7 amended: for Ipv4, a second `listen` with an already-bound
LocalAddress fails with `BindingExists` and leaves the state (hence the
first binding) unchanged; for Udp, a second `listen` with the same
(LocalAddress, LocalPort) returns `BindingExists` propagated from the
forwarded Ipv4 listen, but Udp's own binding is overwritten with the
second call's upstream before the failure, while the Ipv4 state is
unchanged. -/
theorem listen_binding_exists_amended (ipv4 : Ipv4) (udp : Udp)
    (u0 u2 : ProtocolId) (parts : Control) (a p : Nat)
    (hla : Ipv4.get_local parts = .ok a)
    (hla32 : parts.readU32 .localAddress = some a)
    (hport : parts.readU16 .localPort = some p)
    (hbound : assocGet ipv4.listen_bindings a = some u0) :
    Ipv4.listen ipv4 u2 parts = (ipv4, .error (.ipv4 (.bindingExists a)))
    ∧ (Udp.listen udp ipv4 u2 parts).outcome = .err (.ipv4 (.bindingExists a))
    ∧ (Udp.listen udp ipv4 u2 parts).udp.listen_bindings =
        assocInsert udp.listen_bindings ⟨a, p⟩ u2
    ∧ assocGet (Udp.listen udp ipv4 u2 parts).udp.listen_bindings ⟨a, p⟩ =
        some u2
    ∧ (Udp.listen udp ipv4 u2 parts).ipv4 = ipv4 := by
  refine ⟨?_, ?_, ?_, ?_, ?_⟩ <;>
    simp [Ipv4.listen, Udp.listen, hla, hla32, hport, hbound,
      assocGet_insert_self]

/-- Witness for the amended C7 at concrete states matching the
situation after a first successful Udp listen. -/
theorem listen_binding_exists_amended_witness :
    (Ipv4.get_local listenSampleParts = .ok 1 ∧
     listenSampleParts.readU32 .localAddress = some 1 ∧
     listenSampleParts.readU16 .localPort = some 2 ∧
     assocGet (Ipv4.mk [(1, ⟨.transport, 17⟩)] []).listen_bindings 1 =
       some ⟨.transport, 17⟩) ∧
    (Ipv4.listen (Ipv4.mk [(1, ⟨.transport, 17⟩)] []) ⟨.user, 1⟩
        listenSampleParts =
      (Ipv4.mk [(1, ⟨.transport, 17⟩)] [], .error (.ipv4 (.bindingExists 1)))
    ∧ (Udp.listen (Udp.mk [(⟨1, 2⟩, ⟨.user, 0⟩)] [])
        (Ipv4.mk [(1, ⟨.transport, 17⟩)] []) ⟨.user, 1⟩
        listenSampleParts).outcome = .err (.ipv4 (.bindingExists 1))
    ∧ (Udp.listen (Udp.mk [(⟨1, 2⟩, ⟨.user, 0⟩)] [])
        (Ipv4.mk [(1, ⟨.transport, 17⟩)] []) ⟨.user, 1⟩
        listenSampleParts).udp.listen_bindings =
        assocInsert (Udp.mk [(⟨1, 2⟩, ⟨.user, 0⟩)] []).listen_bindings ⟨1, 2⟩
          ⟨.user, 1⟩
    ∧ assocGet (Udp.listen (Udp.mk [(⟨1, 2⟩, ⟨.user, 0⟩)] [])
        (Ipv4.mk [(1, ⟨.transport, 17⟩)] []) ⟨.user, 1⟩
        listenSampleParts).udp.listen_bindings ⟨1, 2⟩ = some ⟨.user, 1⟩
    ∧ (Udp.listen (Udp.mk [(⟨1, 2⟩, ⟨.user, 0⟩)] [])
        (Ipv4.mk [(1, ⟨.transport, 17⟩)] []) ⟨.user, 1⟩
        listenSampleParts).ipv4 = Ipv4.mk [(1, ⟨.transport, 17⟩)] []) :=
  ⟨⟨by decide, by decide, by decide, by decide⟩,
    listen_binding_exists_amended (Ipv4.mk [(1, ⟨.transport, 17⟩)] [])
      (Udp.mk [(⟨1, 2⟩, ⟨.user, 0⟩)] []) ⟨.transport, 17⟩ ⟨.user, 1⟩
      listenSampleParts 1 2 (by decide) (by decide) (by decide) (by decide)⟩

/-- C9 (code bug): `Udp::open` and `Udp::listen` reach the participant
Control with `try_from(...).unwrap()`, so a missing required key (or a
key of the wrong primitive type, here LocalPort as u8) panics instead of
returning a typed error; no session or binding is created, but the call
diverges rather than returning. -/
theorem Udp.open_listen_panics_on_missing_keys :
    (Udp.open ⟨[], []⟩ ⟨.user, 0⟩ Control.new (.ok 0)).outcome =
      .panicked "unwrap"
    ∧ (Udp.open ⟨[], []⟩ ⟨.user, 0⟩ Control.new (.ok 0)).udp = ⟨[], []⟩
    ∧ (Udp.open ⟨[], []⟩ ⟨.user, 0⟩
        (Control.new.insert .localPort (.u8 5)) (.ok 0)).outcome =
      .panicked "unwrap"
    ∧ (Udp.listen ⟨[], []⟩ ⟨[], []⟩ ⟨.user, 0⟩ Control.new).outcome =
      .panicked "unwrap"
    ∧ (Udp.listen ⟨[], []⟩ ⟨[], []⟩ ⟨.user, 0⟩ Control.new).udp = ⟨[], []⟩
    ∧ (∀ e, (Outcome.panicked (α := UdpSession) "unwrap") ≠ .err e) :=
  ⟨rfl, rfl, rfl, rfl, rfl, fun _ h => Outcome.noConfusion h⟩
